import Mathlib

/-!
Shallow embedding of the fortnitepy-edit message abstraction
(`fortnitepy/message.py`) and command error taxonomy
(`fortnitepy/ext/commands/errors.py`), with theorems settling the
specification claims about reply routing, error construction and
error-message formatting.
-/

namespace Fortnitepy

/-! ## Message abstraction (`fortnitepy/message.py`)

`Client`, `Friend`, `PartyMember` and `ClientParty` are external
collaborators; only their identity matters here, so each is modelled as a
wrapper around an id.  `datetime.datetime.utcnow()` is modelled as an
ambient `now : Nat` instant supplied to the constructor. -/

structure Client where
  id : String
  deriving DecidableEq, Repr

structure Friend where
  id : String
  deriving DecidableEq, Repr

structure PartyMember where
  id : String
  deriving DecidableEq, Repr

structure ClientParty where
  id : String
  deriving DecidableEq, Repr

/-- The one awaited send primitive a `reply` call forwards to: a friend's
direct send (`Friend.send`), a single party member's send, or a party-wide
broadcast send (`ClientParty.send`). -/
inductive SendEffect where
  | directSend (target : Friend) (content : String)
  | memberSend (target : PartyMember) (content : String)
  | partySend (target : ClientParty) (content : String)
  deriving DecidableEq, Repr

/-- `MessageBase`/`FriendMessage` state: the four `__slots__` set in
`MessageBase.__init__` (`_client`, `_author`, `_content`, `_created_at`). -/
structure FriendMessage where
  mClient : Client
  mAuthor : Friend
  mContent : String
  mCreatedAt : Nat
  deriving DecidableEq, Repr

/-- `FriendMessage.__init__` (via `MessageBase.__init__`): stores the
arguments and captures `utcnow()` (the ambient `now`). -/
def FriendMessage.init (client : Client) (author : Friend)
    (content : String) (now : Nat) : FriendMessage :=
  { mClient := client, mAuthor := author, mContent := content,
    mCreatedAt := now }

/-- `MessageBase.client` property. -/
def FriendMessage.client (m : FriendMessage) : Client := m.mClient

/-- `MessageBase.author` property. -/
def FriendMessage.author (m : FriendMessage) : Friend := m.mAuthor

/-- `MessageBase.content` property. -/
def FriendMessage.content (m : FriendMessage) : String := m.mContent

/-- `MessageBase.created_at` property. -/
def FriendMessage.created_at (m : FriendMessage) : Nat := m.mCreatedAt

/-- `FriendMessage.reply`: `return await self.author.send(content)` — the
body is exactly one awaited call to the author's direct send. -/
def FriendMessage.reply (m : FriendMessage) (content : String) : SendEffect :=
  SendEffect.directSend m.mAuthor content

/-- `PartyMessage` state: the inherited `MessageBase` slots plus the plain
`party` slot assigned in `PartyMessage.__init__`. -/
structure PartyMessage where
  mClient : Client
  mAuthor : PartyMember
  mContent : String
  mCreatedAt : Nat
  party : ClientParty
  deriving DecidableEq, Repr

/-- `PartyMessage.__init__`: `super().__init__(client, author, content)`
then `self.party = party`. -/
def PartyMessage.init (client : Client) (party : ClientParty)
    (author : PartyMember) (content : String) (now : Nat) : PartyMessage :=
  { mClient := client, mAuthor := author, mContent := content,
    mCreatedAt := now, party := party }

/-- `MessageBase.client` property (inherited). -/
def PartyMessage.client (m : PartyMessage) : Client := m.mClient

/-- `PartyMessage.author` property (overridden, returns `self._author`). -/
def PartyMessage.author (m : PartyMessage) : PartyMember := m.mAuthor

/-- `MessageBase.content` property (inherited). -/
def PartyMessage.content (m : PartyMessage) : String := m.mContent

/-- `MessageBase.created_at` property (inherited). -/
def PartyMessage.created_at (m : PartyMessage) : Nat := m.mCreatedAt

/-- `PartyMessage.reply`: `return await self.party.send(content)` — the body
is exactly one awaited call to the party's broadcast send. -/
def PartyMessage.reply (m : PartyMessage) (content : String) : SendEffect :=
  SendEffect.partySend m.party content

/-! ### Attribute assignment

Both classes use `__slots__`.  The public names `client`, `author`,
`content` and `created_at` are `@property` descriptors with no setter, so
assigning to them raises `AttributeError`; `party` is a plain slot entry
and assignment to it simply rebinds it.  `setattr` models assignment on
each public attribute name (for `party` the model covers the well-typed
writes; the slot itself also raises no error for other values, and
properties reject every value regardless of its type). -/

inductive FriendAttr where
  | client | author | content | created_at
  deriving DecidableEq, Repr

inductive PartyAttr where
  | client | author | content | created_at | party
  deriving DecidableEq, Repr

/-- A value stored in or read from a message attribute. -/
inductive AttrValue where
  | vClient (c : Client)
  | vFriend (f : Friend)
  | vMember (m : PartyMember)
  | vStr (s : String)
  | vTime (t : Nat)
  | vParty (p : ClientParty)
  deriving DecidableEq, Repr

def attributeError : String := "AttributeError: can\x27t set attribute"

/-- Reading a public attribute of a `FriendMessage` (all four are pure
property reads of the stored slots). -/
def FriendMessage.getattr (m : FriendMessage) : FriendAttr → AttrValue
  | .client => .vClient m.mClient
  | .author => .vFriend m.mAuthor
  | .content => .vStr m.mContent
  | .created_at => .vTime m.mCreatedAt

/-- Assigning to a public attribute of a `FriendMessage`: every public
name is a setterless property, so every assignment raises. -/
def FriendMessage.setattr (_m : FriendMessage) (_a : FriendAttr)
    (_v : AttrValue) : Except String FriendMessage :=
  Except.error attributeError

/-- Reading a public attribute of a `PartyMessage`. -/
def PartyMessage.getattr (m : PartyMessage) : PartyAttr → AttrValue
  | .client => .vClient m.mClient
  | .author => .vMember m.mAuthor
  | .content => .vStr m.mContent
  | .created_at => .vTime m.mCreatedAt
  | .party => .vParty m.party

/-- Assigning to a public attribute of a `PartyMessage`: `party` is a plain
slot and the write succeeds; the other four are setterless properties and
raise. -/
def PartyMessage.setattr (m : PartyMessage) (a : PartyAttr)
    (p : ClientParty) : Except String PartyMessage :=
  match a with
  | .party => Except.ok { m with party := p }
  | _ => Except.error attributeError

/-! ## Python runtime helpers

`fortnitepy/ext/commands/errors.py` formats its messages with `str.format`
and `%`; the helpers below model the pieces of the Python runtime those
templates use on the payload types that occur in this module. -/

/-- Python `repr` of a `str` for strings without control characters: wrap
in single quotes (escaping backslashes and single quotes), or in double
quotes when the string contains a single quote but no double quote. -/
def pyReprStr (s : String) : String :=
  if s.contains (Char.ofNat 39) && !s.contains (Char.ofNat 34) then
    "\"" ++ (s.replace "\\" "\\\\") ++ "\""
  else
    "\x27" ++ ((s.replace "\\" "\\\\").replace "\x27" "\\\x27") ++ "\x27"

/-- Python `repr` of an optional string, `None` rendering as `None`. -/
def pyReprOpt : Option String → String
  | none => "None"
  | some s => pyReprStr s

/-- Python truthiness-based `x or d` on an optional string: `None` and the
empty string are falsy, so both select the fallback `d`. -/
def pyOrStr (x : Option String) (d : String) : String :=
  match x with
  | some s => if s = "" then d else s
  | none => d

/-- Modelled from the spec: `FortniteException` (defined in
`fortnitepy/errors.py`, outside the provided sources) is the base exception
type every error kind ultimately reports through; the spec requires each
kind to expose a human-readable message.  It is a plain `Exception`
subclass, so an instance holds the tuple of positional arguments passed to
`BaseException.__init__`, and its `str()` — the human-readable message —
is `""` for no arguments, the sole argument for one, and the rendering of
the argument tuple otherwise. -/
def exnStr : List String → String
  | [] => ""
  | [m] => m
  | ms => "(" ++ String.intercalate ", " (ms.map pyReprStr) ++ ")"

/-! ## Error taxonomy payload collaborators

External collaborators supplying payload (converters, checks, cooldown
buckets, wrapped exceptions) are modelled at their boundary: only the
attributes the error classes read. -/

/-- `inspect.Parameter`: only `.name` is read by the formatting code. -/
structure Parameter where
  name : String
  deriving DecidableEq, Repr

/-- A cooldown descriptor (`Cooldown` from `cooldown.py`); stored verbatim,
never read, so modelled as an opaque token. -/
structure Cooldown where
  token : Nat
  deriving DecidableEq, Repr

/-- A concurrency bucket (`BucketType` from `cooldown.py`); only `.name`
(the enum member name) is read. -/
structure BucketType where
  name : String
  deriving DecidableEq, Repr

/-- A converter as seen by `BadUnionArgument._get_name`: a named type has
`__name__` (modelled as `declaredName = some n`), a converter instance
does not, and then `x.__class__.__name__` (`className`) is used.
`reprStr` is the object's `repr` (identity-dependent for instances, so
carried as data). -/
structure Converter where
  declaredName : Option String
  className : String
  reprStr : String
  deriving DecidableEq, Repr

/-- A wrapped Python exception: only its class name, its `str()` text
(read by `{0.__class__.__name__}: {0}` formatting) and its `repr`. -/
structure PyException where
  className : String
  text : String
  reprStr : String
  deriving DecidableEq, Repr

/-- A check predicate (callable); stored verbatim, never read. -/
structure Check where
  token : Nat
  deriving DecidableEq, Repr

/-! ## Error taxonomy (`fortnitepy/ext/commands/errors.py`)

Each class is a structure holding its stored attributes plus `args`, the
positional-argument tuple reaching `BaseException.__init__`; the
`<Class>.init` function is the translation of `<Class>.__init__`. -/

/-- `CommandError` state: only the exception args. -/
structure CommandError where
  args : List String
  deriving DecidableEq, Repr

/-- `CommandError.__init__(message=None, *args)`: forwards
`(message, *args)` when `message is not None`, else just `*args`. -/
def CommandError.init (message : Option String) (extra : List String) :
    CommandError :=
  match message with
  | some m => { args := m :: extra }
  | none => { args := extra }

/-- `UserInputError`: `pass` — inherits `CommandError.__init__`. -/
def UserInputError.init (message : Option String) (extra : List String) :
    CommandError :=
  CommandError.init message extra

/-- `CommandNotFound`: `pass` — inherits `CommandError.__init__`. -/
def CommandNotFound.init (message : Option String) (extra : List String) :
    CommandError :=
  CommandError.init message extra

/-- `MissingRequiredArgument` state. -/
structure MissingRequiredArgument where
  param : Parameter
  args : List String
  deriving DecidableEq, Repr

/-- `MissingRequiredArgument.__init__(param)`: stores `param` and formats
`'{0.name} is a required argument that is missing.'`. -/
def MissingRequiredArgument.init (param : Parameter) :
    MissingRequiredArgument :=
  { param := param,
    args := (CommandError.init
      (some (param.name ++ " is a required argument that is missing."))
      []).args }

/-- `TooManyArguments`: `pass` — inherits `CommandError.__init__`. -/
def TooManyArguments.init (message : Option String) (extra : List String) :
    CommandError :=
  CommandError.init message extra

/-- `BadArgument`: `pass` — inherits `CommandError.__init__`. -/
def BadArgument.init (message : Option String) (extra : List String) :
    CommandError :=
  CommandError.init message extra

/-- `CheckFailure`: `pass` — inherits `CommandError.__init__`. -/
def CheckFailure.init (message : Option String) (extra : List String) :
    CommandError :=
  CommandError.init message extra

/-- `CheckAnyFailure` state. -/
structure CheckAnyFailure where
  checks : List Check
  errors : List CommandError
  args : List String
  deriving DecidableEq, Repr

/-- `CheckAnyFailure.__init__(checks, errors)`: stores both and passes the
fixed permission message up the chain. -/
def CheckAnyFailure.init (checks : List Check)
    (errors : List CommandError) : CheckAnyFailure :=
  { checks := checks, errors := errors,
    args := (CommandError.init
      (some "You do not have permission to run this command.") []).args }

/-- `PrivateMessageOnly.__init__(message=None)`:
`super().__init__(message or <default>)`. -/
def PrivateMessageOnly.init (message : Option String) : CommandError :=
  CommandError.init
    (some (pyOrStr message
      "This command can only be used in private messages.")) []

/-- `PartyMessageOnly.__init__(message=None)`:
`super().__init__(message or <default>)`. -/
def PartyMessageOnly.init (message : Option String) : CommandError :=
  CommandError.init
    (some (pyOrStr message
      "This command can only be used in party messages.")) []

/-- `NotOwner`: `pass` — inherits `CommandError.__init__`. -/
def NotOwner.init (message : Option String) (extra : List String) :
    CommandError :=
  CommandError.init message extra

/-- `DisabledCommand`: `pass` — inherits `CommandError.__init__`. -/
def DisabledCommand.init (message : Option String) (extra : List String) :
    CommandError :=
  CommandError.init message extra

/-- `CommandInvokeError` state. -/
structure CommandInvokeError where
  original : PyException
  args : List String
  deriving DecidableEq, Repr

/-- `CommandInvokeError.__init__(e)`: stores `e` and formats
`'Command raised an exception: {0.__class__.__name__}: {0}'`. -/
def CommandInvokeError.init (e : PyException) : CommandInvokeError :=
  { original := e,
    args := (CommandError.init
      (some ("Command raised an exception: " ++ e.className ++ ": "
        ++ e.text)) []).args }

/-! ### Two-decimal float formatting

`CommandOnCooldown` renders `retry_after` with `'{:.2f}'.format(...)`.
A Python float is an IEEE-754 binary64 value, i.e. an exact rational;
`%.2f` formatting rounds that exact rational to the nearest multiple of
1/100, ties to even, and prints the result with exactly two fractional
digits (a leading `-` for negative inputs, even when they round to zero).
-/

/-- Round the fraction `n / d` (with `d > 0`) to the nearest integer,
ties to even — the rounding CPython's float formatting performs on the
exact binary value.  `f` is the floor, `r` the nonnegative remainder, and
`r / d` is compared against `1/2` by cross-multiplication. -/
def roundHalfEvenFrac (n d : ℤ) : ℤ :=
  let f : ℤ := Int.fdiv n d
  let r : ℤ := n % d
  if 2 * r < d then f
  else if d < 2 * r then f + 1
  else if f % 2 = 0 then f else f + 1

/-- Two-digit zero-padded rendering of `m < 100`. -/
def twoDigits (m : Nat) : String :=
  (if m < 10 then "0" else "") ++ toString m

/-- `'%.2f'` on a nonnegative rational: scale by 100, round half-to-even,
print `<int>.<2 digits>`. -/
def format2fCore (q : ℚ) : String :=
  let h : Nat := (roundHalfEvenFrac (100 * q.num) (q.den : ℤ)).toNat
  toString (h / 100) ++ "." ++ twoDigits (h % 100)

/-- `'{:.2f}'.format(q)` for a float with exact value `q` (`q.num < 0`
is exactly `q < 0`; a negative value keeps its sign even when it rounds
to zero, as CPython prints `-0.00`). -/
def format2f (q : ℚ) : String :=
  if q.num < 0 then "-" ++ format2fCore (-q) else format2fCore q

/-- The exact value of the IEEE-754 binary64 closest to the Python literal
`1.005`, namely `1131529406376837 * 2 ^ (-50)` (slightly below 1.005),
given in lowest terms (the numerator is odd, the denominator is
`2 ^ 50`). -/
def pyFloat1005 : ℚ :=
  Rat.mk' 1131529406376837 1125899906842624 (by norm_num) (by norm_num)

/-- `CommandOnCooldown` state. -/
structure CommandOnCooldown where
  cooldown : Cooldown
  retry_after : ℚ
  args : List String
  deriving DecidableEq, Repr

/-- `CommandOnCooldown.__init__(cooldown, retry_after)`: stores both and
formats `'You are on cooldown. Try again in {:.2f}s'`. -/
def CommandOnCooldown.init (cooldown : Cooldown) (retry_after : ℚ) :
    CommandOnCooldown :=
  { cooldown := cooldown, retry_after := retry_after,
    args := (CommandError.init
      (some ("You are on cooldown. Try again in "
        ++ format2f retry_after ++ "s")) []).args }

/-- `MaxConcurrencyReached` state. -/
structure MaxConcurrencyReached where
  number : ℤ
  per : BucketType
  args : List String
  deriving DecidableEq, Repr

/-- `MaxConcurrencyReached.__init__(number, per)`: stores both; `suffix`
is `'per %s' % name` unless `per.name` is the literal `'default'` (then
`'globally'`); the clause is `'%s times %s'` when `number > 1`, else
`'%s time %s'`; the result is spliced into the fixed sentence. -/
def MaxConcurrencyReached.init (number : ℤ) (per : BucketType) :
    MaxConcurrencyReached :=
  let name := per.name
  let suffix := if per.name ≠ "default" then "per " ++ name else "globally"
  let fmt := if number > 1
    then toString number ++ " times " ++ suffix
    else toString number ++ " time " ++ suffix
  { number := number, per := per,
    args := (CommandError.init
      (some ("Too many people using this command. It can only be used "
        ++ fmt ++ " concurrently.")) []).args }

/-- `ConversionError` state.  Its `__init__` stores the payload and never
calls `super().__init__`, so the exception's `args` stay as captured by
`BaseException.__new__`: the raw `(converter, original)` argument tuple. -/
structure ConversionError where
  converter : Converter
  original : PyException
  deriving DecidableEq, Repr

/-- `ConversionError.__init__(converter, original)`: payload only. -/
def ConversionError.init (converter : Converter) (original : PyException) :
    ConversionError :=
  { converter := converter, original := original }

/-- The human-readable message of a `ConversionError`: `str()` of the
two-element argument tuple captured by `BaseException.__new__`, i.e. the
parenthesised, comma-joined `repr`s of the payload objects. -/
def ConversionError.message (e : ConversionError) : String :=
  "(" ++ e.converter.reprStr ++ ", " ++ e.original.reprStr ++ ")"

/-- `BadUnionArgument._get_name(x)`: `x.__name__`, falling back to
`x.__class__.__name__` on `AttributeError`. -/
def getName (x : Converter) : String :=
  match x.declaredName with
  | some n => n
  | none => x.className

/-- `BadUnionArgument` state. -/
structure BadUnionArgument where
  param : Parameter
  converters : List Converter
  errors : List CommandError
  args : List String
  deriving DecidableEq, Repr

/-- `BadUnionArgument.__init__(param, converters, errors)`: stores the
payload; joins the converter display names with `', '` plus a final
`', or <last>'` when more than two, else with `' or '`; formats
`'Could not convert "{0.name}" into {1}.'`. -/
def BadUnionArgument.init (param : Parameter) (converters : List Converter)
    (errors : List CommandError) : BadUnionArgument :=
  let to_string := converters.map getName
  let fmt := if to_string.length > 2
    then String.intercalate ", " to_string.dropLast ++ ", or "
      ++ to_string.getLastD ""
    else String.intercalate " or " to_string
  { param := param, converters := converters, errors := errors,
    args := (CommandError.init
      (some ("Could not convert \"" ++ param.name ++ "\" into "
        ++ fmt ++ ".")) []).args }

/-- `ArgumentParsingError`: `pass` — inherits `CommandError.__init__`. -/
def ArgumentParsingError.init (message : Option String)
    (extra : List String) : CommandError :=
  CommandError.init message extra

/-- `UnexpectedQuoteError` state. -/
structure UnexpectedQuoteError where
  quote : String
  args : List String
  deriving DecidableEq, Repr

/-- `UnexpectedQuoteError.__init__(quote)`: stores `quote` and formats
`'Unexpected quote mark, {0!r}, in non-quoted string'`. -/
def UnexpectedQuoteError.init (quote : String) : UnexpectedQuoteError :=
  { quote := quote,
    args := (CommandError.init
      (some ("Unexpected quote mark, " ++ pyReprStr quote
        ++ ", in non-quoted string")) []).args }

/-- `InvalidEndOfQuotedStringError` state. -/
structure InvalidEndOfQuotedStringError where
  char : String
  args : List String
  deriving DecidableEq, Repr

/-- `InvalidEndOfQuotedStringError.__init__(char)`: stores `char` and
formats `'Expected space after closing quotation but received {0!r}'`. -/
def InvalidEndOfQuotedStringError.init (char : String) :
    InvalidEndOfQuotedStringError :=
  { char := char,
    args := (CommandError.init
      (some ("Expected space after closing quotation but received "
        ++ pyReprStr char)) []).args }

/-- `ExpectedClosingQuoteError` state. -/
structure ExpectedClosingQuoteError where
  close_quote : String
  args : List String
  deriving DecidableEq, Repr

/-- `ExpectedClosingQuoteError.__init__(close_quote)`: stores it and
formats `'Expected closing {}.'`. -/
def ExpectedClosingQuoteError.init (close_quote : String) :
    ExpectedClosingQuoteError :=
  { close_quote := close_quote,
    args := (CommandError.init
      (some ("Expected closing " ++ close_quote ++ ".")) []).args }

/-- `ExtensionError` state.  `name` is `Option String` because Python is
dynamically typed: the keyword-only `name` parameter must be supplied at
the call, but `None` is an accepted value (`none` here). -/
structure ExtensionError where
  name : Option String
  args : List String
  deriving DecidableEq, Repr

/-- `ExtensionError.__init__(message=None, *args, name)`: stores `name`,
resolves `message = message or 'Extension {!r} had an error.'.format(name)`
(''`or`'' on Python truthiness), and passes `(message, *args)` to the
`Exception` base. -/
def ExtensionError.init (message : Option String) (extra : List String)
    (name : Option String) : ExtensionError :=
  let resolved := pyOrStr message
    ("Extension " ++ pyReprOpt name ++ " had an error.")
  { name := name, args := resolved :: extra }

/-- `ExtensionAlreadyLoaded.__init__(name)`: formats
`'Extension {!r} is already loaded.'` and forwards `name`. -/
def ExtensionAlreadyLoaded.init (name : String) : ExtensionError :=
  ExtensionError.init
    (some ("Extension " ++ pyReprStr name ++ " is already loaded."))
    [] (some name)

/-- `ExtensionNotLoaded.__init__(name)`: formats
`'Extension {!r} has not been loaded.'` and forwards `name`. -/
def ExtensionNotLoaded.init (name : String) : ExtensionError :=
  ExtensionError.init
    (some ("Extension " ++ pyReprStr name ++ " has not been loaded."))
    [] (some name)

/-- `ExtensionMissingEntryPoint.__init__(name)`: formats
`"Extension {!r} has no 'setup' function."` and forwards `name`. -/
def ExtensionMissingEntryPoint.init (name : String) : ExtensionError :=
  ExtensionError.init
    (some ("Extension " ++ pyReprStr name
      ++ " has no \x27setup\x27 function."))
    [] (some name)

/-- `ExtensionFailed` state. -/
structure ExtensionFailed where
  name : Option String
  original : PyException
  args : List String
  deriving DecidableEq, Repr

/-- `ExtensionFailed.__init__(name, original)`: stores `original`, formats
`'Extension {0!r} raised an error: {1.__class__.__name__}: {1}'` and
forwards `name` to `ExtensionError.__init__`. -/
def ExtensionFailed.init (name : String) (original : PyException) :
    ExtensionFailed :=
  let base := ExtensionError.init
    (some ("Extension " ++ pyReprStr name ++ " raised an error: "
      ++ original.className ++ ": " ++ original.text))
    [] (some name)
  { name := base.name, original := original, args := base.args }

/-- `ExtensionNotFound.__init__(name)`: formats
`'Extension {0!r} could not be loaded.'` and forwards `name`. -/
def ExtensionNotFound.init (name : String) : ExtensionError :=
  ExtensionError.init
    (some ("Extension " ++ pyReprStr name ++ " could not be loaded."))
    [] (some name)

/-! ## The class hierarchy

One constructor per class defined in `errors.py` (plus the external base
`FortniteException`); `superclass` is the declared base of each `class`
statement, read off the source verbatim. -/

inductive ErrClass where
  | FortniteException
  | CommandError
  | UserInputError
  | CommandNotFound
  | MissingRequiredArgument
  | TooManyArguments
  | BadArgument
  | CheckFailure
  | CheckAnyFailure
  | PrivateMessageOnly
  | PartyMessageOnly
  | NotOwner
  | DisabledCommand
  | CommandInvokeError
  | CommandOnCooldown
  | MaxConcurrencyReached
  | ConversionError
  | BadUnionArgument
  | ArgumentParsingError
  | UnexpectedQuoteError
  | InvalidEndOfQuotedStringError
  | ExpectedClosingQuoteError
  | ExtensionError
  | ExtensionAlreadyLoaded
  | ExtensionNotLoaded
  | ExtensionMissingEntryPoint
  | ExtensionFailed
  | ExtensionNotFound
  deriving DecidableEq, Repr

/-- The declared base class of each class in `errors.py`
(`FortniteException` itself extends the builtin `Exception`, outside the
taxonomy).  Note `class CheckFailure(UserInputError)` in the source. -/
def superclass : ErrClass → Option ErrClass
  | .FortniteException => none
  | .CommandError => some .FortniteException
  | .UserInputError => some .CommandError
  | .CommandNotFound => some .CommandError
  | .MissingRequiredArgument => some .UserInputError
  | .TooManyArguments => some .UserInputError
  | .BadArgument => some .UserInputError
  | .CheckFailure => some .UserInputError
  | .CheckAnyFailure => some .CheckFailure
  | .PrivateMessageOnly => some .CheckFailure
  | .PartyMessageOnly => some .CheckFailure
  | .NotOwner => some .CheckFailure
  | .DisabledCommand => some .CommandError
  | .CommandInvokeError => some .CommandError
  | .CommandOnCooldown => some .CommandError
  | .MaxConcurrencyReached => some .CommandError
  | .ConversionError => some .CommandError
  | .BadUnionArgument => some .UserInputError
  | .ArgumentParsingError => some .UserInputError
  | .UnexpectedQuoteError => some .ArgumentParsingError
  | .InvalidEndOfQuotedStringError => some .ArgumentParsingError
  | .ExpectedClosingQuoteError => some .ArgumentParsingError
  | .ExtensionError => some .FortniteException
  | .ExtensionAlreadyLoaded => some .ExtensionError
  | .ExtensionNotLoaded => some .ExtensionError
  | .ExtensionMissingEntryPoint => some .ExtensionError
  | .ExtensionFailed => some .ExtensionError
  | .ExtensionNotFound => some .ExtensionError

/-- Walk up at most `fuel` superclass links checking for `b` (the
hierarchy has depth at most 5, so `fuel = 8` is exhaustive). -/
def isSubclassAux : Nat → ErrClass → ErrClass → Bool
  | 0, _, _ => false
  | fuel + 1, a, b =>
    if a = b then true
    else match superclass a with
      | none => false
      | some p => isSubclassAux fuel p b

/-- `issubclass(a, b)` / `isinstance`-style matching on the taxonomy. -/
def isSubclass (a b : ErrClass) : Bool :=
  isSubclassAux 8 a b

/-! ## Helper lemmas -/

lemma strAppend_ne_empty_right (a b : String) (h : b ≠ "") :
    a ++ b ≠ "" := by
  intro hab
  apply h
  apply String.ext
  have hd := congrArg String.data hab
  rw [String.data_append] at hd
  exact (List.append_eq_nil.mp hd).2

lemma strAppend_ne_empty_left (a b : String) (h : a ≠ "") :
    a ++ b ≠ "" := by
  intro hab
  apply h
  apply String.ext
  have hd := congrArg String.data hab
  rw [String.data_append] at hd
  exact (List.append_eq_nil.mp hd).1

lemma pyOrStr_ne_empty (x : Option String) (d : String) (hd : d ≠ "") :
    pyOrStr x d ≠ "" := by
  cases x with
  | none => exact hd
  | some s =>
    by_cases hs : s = ""
    · simp [pyOrStr, hs]
      exact hd
    · simp [pyOrStr, hs]

lemma twoDigits_length : ∀ m, m < 100 → (twoDigits m).length = 2 := by
  decide

lemma extensionError_message_ne_empty (msg : Option String)
    (extra : List String) (name : Option String) :
    exnStr (ExtensionError.init msg extra name).args ≠ "" := by
  cases extra with
  | nil =>
    exact pyOrStr_ne_empty _ _ (strAppend_ne_empty_right _ _ (by decide))
  | cons x xs => exact strAppend_ne_empty_left "(" _ (by decide)

/-! ## Claim theorems -/

/-- C1: Reply routing is variant-determined: a friend message's `reply`
forwards the content to the author's direct send and to no other send
primitive, and a party message's `reply` forwards the content to the
party's broadcast send and never to the individual author (nor to any
friend's direct send). -/
theorem reply_routing_variant_determined :
    ∀ (fm : FriendMessage) (pm : PartyMessage) (content : String),
      fm.reply content = SendEffect.directSend fm.author content
      ∧ (∀ (p : ClientParty) (c : String),
          fm.reply content ≠ SendEffect.partySend p c)
      ∧ (∀ (mem : PartyMember) (c : String),
          fm.reply content ≠ SendEffect.memberSend mem c)
      ∧ pm.reply content = SendEffect.partySend pm.party content
      ∧ (∀ (mem : PartyMember) (c : String),
          pm.reply content ≠ SendEffect.memberSend mem c)
      ∧ (∀ (f : Friend) (c : String),
          pm.reply content ≠ SendEffect.directSend f c) := by
  intro fm pm content
  refine ⟨rfl, ?_, ?_, rfl, ?_, ?_⟩ <;>
    intro x c h <;>
    simp [FriendMessage.reply, PartyMessage.reply] at h

/-- C6 counterexample: constructing `ExtensionError` with a null (`None`)
value for the required extension name does not fail: it produces an
instance whose `name` is `None` and whose message is
`'Extension None had an error.'`. -/
theorem extensionError_null_name_constructs :
    (ExtensionError.init none [] none).name = none
    ∧ exnStr (ExtensionError.init none [] none).args
      = "Extension None had an error." :=
  ⟨rfl, rfl⟩

/-- C6 amended: the extension name is a required keyword-only parameter,
so it cannot be omitted at the call site, but any value for it — a null
`None` included — is accepted: construction succeeds for every `name`,
stores it, and the default message embeds its `repr`. -/
theorem extensionError_accepts_any_name :
    ∀ (name : Option String) (message : Option String)
      (extra : List String),
      (ExtensionError.init message extra name).name = name
      ∧ (ExtensionError.init none [] name).args
        = ["Extension " ++ pyReprOpt name ++ " had an error."] := by
  intro name message extra
  exact ⟨rfl, rfl⟩

/-- C8: `errors.py` declares `class CheckFailure(UserInputError)`, so
`CheckFailure` and all of its descendants also match the user-input branch
(`isinstance(..., UserInputError)` is true), contradicting the claimed
(and docstring-stated) placement of the permission branch directly under
`CommandError`, distinct from user input. -/
theorem checkFailure_matches_userInputError :
    isSubclass ErrClass.CheckFailure ErrClass.UserInputError = true
    ∧ isSubclass ErrClass.CheckAnyFailure ErrClass.UserInputError = true
    ∧ isSubclass ErrClass.PrivateMessageOnly ErrClass.UserInputError = true
    ∧ isSubclass ErrClass.PartyMessageOnly ErrClass.UserInputError = true
    ∧ isSubclass ErrClass.NotOwner ErrClass.UserInputError = true := by
  decide

/-- C9: Round-trip of payload through construction: every kind-specific
payload field passed to a constructor is retrievable unchanged from the
constructed instance via the corresponding accessor. -/
theorem payload_round_trip :
    ∀ (param : Parameter) (checks : List Check)
      (cerrs : List CommandError) (e : PyException) (cd : Cooldown)
      (q : ℚ) (n : ℤ) (b : BucketType) (conv : Converter)
      (convs : List Converter) (quote ch cq nm : String)
      (msg : Option String) (extra : List String)
      (extName : Option String),
      (MissingRequiredArgument.init param).param = param
      ∧ (CheckAnyFailure.init checks cerrs).checks = checks
      ∧ (CheckAnyFailure.init checks cerrs).errors = cerrs
      ∧ (CommandInvokeError.init e).original = e
      ∧ (CommandOnCooldown.init cd q).cooldown = cd
      ∧ (CommandOnCooldown.init cd q).retry_after = q
      ∧ (MaxConcurrencyReached.init n b).number = n
      ∧ (MaxConcurrencyReached.init n b).per = b
      ∧ (ConversionError.init conv e).converter = conv
      ∧ (ConversionError.init conv e).original = e
      ∧ (BadUnionArgument.init param convs cerrs).param = param
      ∧ (BadUnionArgument.init param convs cerrs).converters = convs
      ∧ (BadUnionArgument.init param convs cerrs).errors = cerrs
      ∧ (UnexpectedQuoteError.init quote).quote = quote
      ∧ (InvalidEndOfQuotedStringError.init ch).char = ch
      ∧ (ExpectedClosingQuoteError.init cq).close_quote = cq
      ∧ (ExtensionError.init msg extra extName).name = extName
      ∧ (ExtensionFailed.init nm e).name = some nm
      ∧ (ExtensionFailed.init nm e).original = e := by
  intros
  repeat constructor

/-- C2 counterexample: the leaf kind `CommandNotFound`, constructed with
its valid (empty) payload, has an empty human-readable message. -/
theorem commandNotFound_empty_message :
    exnStr (CommandNotFound.init none []).args = "" :=
  rfl

/-- C2 amended: construction of every leaf kind with well-typed payload
never fails (each `init` is total) and the message is a pure function of
the constructor input; the message is non-empty for every leaf kind that
formats one from its payload — but not for the payload-less pass-through
kinds (`CommandNotFound`, `TooManyArguments`, `BadArgument`,
`CheckFailure`, `NotOwner`, `DisabledCommand`) constructed without an
explicit message, whose message is empty. -/
theorem leaf_messages_nonempty :
    ∀ (param : Parameter) (checks : List Check)
      (cerrs : List CommandError) (msg : Option String) (e : PyException)
      (cd : Cooldown) (q : ℚ) (n : ℤ) (b : BucketType) (conv : Converter)
      (convs : List Converter) (quote ch cq nm : String)
      (extName : Option String),
      exnStr (MissingRequiredArgument.init param).args ≠ ""
      ∧ exnStr (CheckAnyFailure.init checks cerrs).args ≠ ""
      ∧ exnStr (PrivateMessageOnly.init msg).args ≠ ""
      ∧ exnStr (PartyMessageOnly.init msg).args ≠ ""
      ∧ exnStr (CommandInvokeError.init e).args ≠ ""
      ∧ exnStr (CommandOnCooldown.init cd q).args ≠ ""
      ∧ exnStr (MaxConcurrencyReached.init n b).args ≠ ""
      ∧ exnStr (BadUnionArgument.init param convs cerrs).args ≠ ""
      ∧ (ConversionError.init conv e).message ≠ ""
      ∧ exnStr (UnexpectedQuoteError.init quote).args ≠ ""
      ∧ exnStr (InvalidEndOfQuotedStringError.init ch).args ≠ ""
      ∧ exnStr (ExpectedClosingQuoteError.init cq).args ≠ ""
      ∧ exnStr (ExtensionError.init msg [] extName).args ≠ ""
      ∧ exnStr (ExtensionAlreadyLoaded.init nm).args ≠ ""
      ∧ exnStr (ExtensionNotLoaded.init nm).args ≠ ""
      ∧ exnStr (ExtensionMissingEntryPoint.init nm).args ≠ ""
      ∧ exnStr (ExtensionFailed.init nm e).args ≠ ""
      ∧ exnStr (ExtensionNotFound.init nm).args ≠ "" := by
  intro param checks cerrs msg e cd q n b conv convs quote ch cq nm extName
  refine ⟨?_, ?_, ?_, ?_, ?_, ?_, ?_, ?_, ?_, ?_, ?_, ?_, ?_, ?_, ?_, ?_,
    ?_, ?_⟩
  · exact strAppend_ne_empty_right _ _ (by decide)
  · show ("You do not have permission to run this command." : String) ≠ ""
    decide
  · exact pyOrStr_ne_empty _ _ (by decide)
  · exact pyOrStr_ne_empty _ _ (by decide)
  · exact strAppend_ne_empty_left _ _
      (strAppend_ne_empty_right _ _ (by decide))
  · exact strAppend_ne_empty_right _ _ (by decide)
  · exact strAppend_ne_empty_right _ _ (by decide)
  · exact strAppend_ne_empty_right _ _ (by decide)
  · exact strAppend_ne_empty_right _ _ (by decide)
  · exact strAppend_ne_empty_right _ _ (by decide)
  · exact strAppend_ne_empty_left _ _ (by decide)
  · exact strAppend_ne_empty_right _ _ (by decide)
  · exact extensionError_message_ne_empty _ _ _
  · exact extensionError_message_ne_empty _ _ _
  · exact extensionError_message_ne_empty _ _ _
  · exact extensionError_message_ne_empty _ _ _
  · exact extensionError_message_ne_empty _ _ _
  · exact extensionError_message_ne_empty _ _ _

/-- C3 counterexample: the message of `MaxConcurrencyReached(1, default)`
is `'Too many people using this command. It can only be used 1 time
globally concurrently.'`; it does not end with `'used 1 time globally.'`
(nor does `MaxConcurrencyReached(3, user)`'s end with
`'used 3 times per user.'`): the rendered clause is followed by
`' concurrently.'`. -/
theorem maxConcurrency_example_suffix_mismatch :
    exnStr (MaxConcurrencyReached.init 1 ⟨"default"⟩).args
      = "Too many people using this command. It can only be used 1 time globally concurrently."
    ∧ ("used 1 time globally.".data).isSuffixOf
        (exnStr (MaxConcurrencyReached.init 1 ⟨"default"⟩).args).data
      = false
    ∧ ("used 3 times per user.".data).isSuffixOf
        (exnStr (MaxConcurrencyReached.init 3 ⟨"user"⟩).args).data
      = false := by
  refine ⟨by decide, by decide, by decide⟩

/-- C3 amended: the message of `MaxConcurrencyReached(n, b)` renders the
suffix `'globally'` exactly when `b`'s canonical name is the literal
`'default'` and `'per <name>'` otherwise, and uses the plural clause
`'%s times %s'` exactly when `n > 1` and the singular `'%s time %s'`
otherwise; the rendered clause sits before the closing
`' concurrently.'`, so the examples read `'...used 1 time globally
concurrently.'` and `'...used 3 times per user concurrently.'`. -/
theorem maxConcurrencyReached_message :
    ∀ (n : ℤ) (b : BucketType),
      exnStr (MaxConcurrencyReached.init n b).args
        = "Too many people using this command. It can only be used "
          ++ (if n > 1
              then toString n ++ " times "
                ++ (if b.name = "default" then "globally"
                    else "per " ++ b.name)
              else toString n ++ " time "
                ++ (if b.name = "default" then "globally"
                    else "per " ++ b.name))
          ++ " concurrently."
      ∧ ("used 1 time globally concurrently.".data).isSuffixOf
          (exnStr (MaxConcurrencyReached.init 1 ⟨"default"⟩).args).data
        = true
      ∧ ("used 3 times per user concurrently.".data).isSuffixOf
          (exnStr (MaxConcurrencyReached.init 3 ⟨"user"⟩).args).data
        = true := by
  intro n b
  refine ⟨?_, by decide, by decide⟩
  by_cases hb : b.name = "default" <;> by_cases hn : n > 1 <;>
    simp [MaxConcurrencyReached.init, exnStr, CommandError.init, hb, hn]

/-- C4: the message of `BadUnionArgument` names each converter by the
two-level fallback (`__name__` if present, else the class name of the
instance) and joins the names with `', '` plus a final `', or <last>'`
when there are more than two, and with `' or '` when there are exactly
one or two; two converters render `'... into TypeA or TypeB.'` and three
render `'... into TypeA, TypeB, or TypeC.'`. -/
theorem badUnionArgument_message :
    ∀ (param : Parameter) (c : Converter) (cs : List Converter)
      (errs : List CommandError),
      (exnStr (BadUnionArgument.init param (c :: cs) errs).args
        = "Could not convert \"" ++ param.name ++ "\" into "
          ++ (if (c :: cs).length > 2
              then String.intercalate ", " ((c :: cs).map getName).dropLast
                ++ ", or " ++ ((c :: cs).map getName).getLastD ""
              else String.intercalate " or " ((c :: cs).map getName))
          ++ ".")
      ∧ ("into TypeA or TypeB.".data).isSuffixOf
          (exnStr (BadUnionArgument.init ⟨"x"⟩
            [⟨some "TypeA", "type", "ra"⟩, ⟨some "TypeB", "type", "rb"⟩]
            []).args).data = true
      ∧ ("into TypeA, TypeB, or TypeC.".data).isSuffixOf
          (exnStr (BadUnionArgument.init ⟨"x"⟩
            [⟨some "TypeA", "type", "ra"⟩, ⟨some "TypeB", "type", "rb"⟩,
             ⟨some "TypeC", "type", "rc"⟩]
            []).args).data = true
      ∧ exnStr (BadUnionArgument.init ⟨"x"⟩
          [⟨none, "InstanceClass", "ri"⟩] []).args
        = "Could not convert \"x\" into InstanceClass." := by
  intro param c cs errs
  refine ⟨?_, by decide, by decide, by decide⟩
  simp [BadUnionArgument.init, exnStr, CommandError.init, List.length_map]

/-- A `format2fCore` result always splits as `<int>.<frac>` with a
two-character fractional part. -/
lemma format2fCore_decomp (q : ℚ) :
    ∃ a b : String, format2fCore q = a ++ "." ++ b ∧ b.length = 2 :=
  ⟨toString ((roundHalfEvenFrac (100 * q.num) (q.den : ℤ)).toNat / 100),
   twoDigits ((roundHalfEvenFrac (100 * q.num) (q.den : ℤ)).toNat % 100),
   rfl, twoDigits_length _ (Nat.mod_lt _ (by norm_num))⟩

/-- C5: the message of `CommandOnCooldown` renders the retry-after
seconds with exactly two fractional digits; in particular, for the
binary64 value of the Python literal `1.005` it renders `'1.00s'` (the
exact float value is slightly below 1.005, so correct rounding goes
down). -/
theorem commandOnCooldown_two_decimals :
    ∀ (cd : Cooldown) (q : ℚ),
      exnStr (CommandOnCooldown.init cd q).args
        = "You are on cooldown. Try again in " ++ format2f q ++ "s"
      ∧ (∃ intPart fracPart : String,
          format2f q = intPart ++ "." ++ fracPart ∧ fracPart.length = 2)
      ∧ exnStr (CommandOnCooldown.init cd pyFloat1005).args
        = "You are on cooldown. Try again in 1.00s" := by
  intro cd q
  refine ⟨rfl, ?_, ?_⟩
  · by_cases hq : q.num < 0
    · obtain ⟨a, b, hab, hb⟩ := format2fCore_decomp (-q)
      refine ⟨"-" ++ a, b, ?_, hb⟩
      unfold format2f
      rw [if_pos hq, hab]
      simp [String.append_assoc]
    · obtain ⟨a, b, hab, hb⟩ := format2fCore_decomp q
      refine ⟨a, b, ?_, hb⟩
      unfold format2f
      rw [if_neg hq, hab]
  · show ("You are on cooldown. Try again in "
        ++ format2f pyFloat1005 ++ "s" : String)
      = "You are on cooldown. Try again in 1.00s"
    decide

/-- C7 counterexample: the group variant's `party` reference is not
read-only: assigning to it succeeds and replaces the stored party. -/
theorem partyMessage_party_writable :
    (PartyMessage.setattr
        (PartyMessage.init ⟨"c"⟩ ⟨"p1"⟩ ⟨"m"⟩ "hi" 0)
        PartyAttr.party ⟨"p2"⟩).map PartyMessage.party
      = Except.ok ⟨"p2"⟩
    ∧ (PartyMessage.init ⟨"c"⟩ ⟨"p1"⟩ ⟨"m"⟩ "hi" 0).party = ⟨"p1"⟩
    ∧ (⟨"p1"⟩ : ClientParty) ≠ ⟨"p2"⟩ :=
  ⟨rfl, rfl, by decide⟩

/-- C7 amended: the accessor-backed fields (`client`, `author`,
`content`, `created_at`) of both message variants are read-only
(assignment raises `AttributeError`), and `created_at` is captured once
at construction and is unchanged by the only possible mutation; the group
variant's `party` reference, however, is a plain writable slot:
assignment to it succeeds and replaces the stored party, leaving the
other fields intact. -/
theorem message_fields_read_only_except_party :
    ∀ (fm : FriendMessage) (a : FriendAttr) (v : AttrValue)
      (pm : PartyMessage) (pa : PartyAttr) (p : ClientParty)
      (client : Client) (party : ClientParty) (member : PartyMember)
      (friend : Friend) (content : String) (now : Nat),
      FriendMessage.setattr fm a v = Except.error attributeError
      ∧ PartyMessage.setattr pm pa p
        = (if pa = PartyAttr.party then Except.ok { pm with party := p }
           else Except.error attributeError)
      ∧ (PartyMessage.init client party member content now).created_at
        = now
      ∧ (FriendMessage.init client friend content now).created_at = now
      ∧ ({ pm with party := p } : PartyMessage).created_at = pm.created_at
      ∧ ({ pm with party := p } : PartyMessage).client = pm.client
      ∧ ({ pm with party := p } : PartyMessage).author = pm.author
      ∧ ({ pm with party := p } : PartyMessage).content = pm.content := by
  intro fm a v pm pa p client party member friend content now
  refine ⟨rfl, ?_, rfl, rfl, rfl, rfl, rfl, rfl⟩
  cases pa <;> simp [PartyMessage.setattr]

/-- C10: For the kinds with an optional message override, the
default-message fallback triggers on any falsy override: passing the
empty string produces the same instance as passing no override at all. -/
theorem falsy_override_uses_default :
    ∀ (extra : List String) (name : Option String),
      PrivateMessageOnly.init (some "") = PrivateMessageOnly.init none
      ∧ PartyMessageOnly.init (some "") = PartyMessageOnly.init none
      ∧ ExtensionError.init (some "") extra name
        = ExtensionError.init none extra name := by
  intro extra name
  refine ⟨rfl, rfl, rfl⟩

end Fortnitepy
